import Mathlib

/-!
Verification of the numeric core of the keyence-iv-calculator repository.

The repository has two Python source files, `src/main.py` and `src/i.py`.
Both are Streamlit scripts; the numeric core consists of pure functions over
real-valued quantities, which we embed over `ℚ` (Python floats carry exact
decimal literals here and every operation used is field arithmetic, so `ℚ`
is a faithful exact-arithmetic model).
-/

/-- Embeds `linear_interpolation` from `src/main.py` lines 19-28:
if the input range has zero width the function returns `min_val_out`,
otherwise the value is clamped to `[min_val_in, max_val_in]` via
`max(min_val_in, min(max_val_in, value))` and the affine map is applied. -/
def linear_interpolation (value min_val_in max_val_in min_val_out max_val_out : ℚ) : ℚ :=
  if max_val_in - min_val_in = 0 then min_val_out
  else
    let v := max min_val_in (min max_val_in value)
    min_val_out + (v - min_val_in) * (max_val_out - min_val_out) / (max_val_in - min_val_in)

/-- Embeds `calculate_resolution_metrics` from `src/main.py` lines 11-17:
returns `(0, 0)` when the pixel dimension is zero, otherwise
millimetres-per-pixel and its guarded reciprocal. -/
def calculate_resolution_metrics (fov_mm : ℚ) (pixel_dimension : ℕ) : ℚ × ℚ :=
  if pixel_dimension = 0 then (0, 0)
  else
    let resolution_mm_per_pixel := fov_mm / (pixel_dimension : ℚ)
    let resolution_pixels_per_mm :=
      if resolution_mm_per_pixel ≠ 0 then 1 / resolution_mm_per_pixel else 0
    (resolution_mm_per_pixel, resolution_pixels_per_mm)

/-- Embeds `calculate_resolution` from `src/i.py` lines 6-10. The Python body
performs two unguarded divisions (`fov_h / image_width` then
`1 / resolution_mm_per_pixel`); a division by zero raises `ZeroDivisionError`
(Python raises it on float division by `0.0` as well), which we model as
`none`. -/
def calculate_resolution (fov_h : ℚ) (image_width : ℚ) : Option (ℚ × ℚ) :=
  if image_width = 0 then none
  else
    let resolution_mm_per_pixel := fov_h / image_width
    if resolution_mm_per_pixel = 0 then none
    else some (resolution_mm_per_pixel, 1 / resolution_mm_per_pixel)

/-- Camera catalog entry of `src/main.py` (`get_camera_data`, lines 32-86).
The `image` and `specs` fields are display-only text and carry no numeric
invariant, so they are omitted from the embedding. -/
structure CameraProfile where
  min_fov_x : ℚ
  max_fov_x : ℚ
  min_fov_y : ℚ
  max_fov_y : ℚ
  min_dist : ℚ
  max_dist : ℚ
  resolution_h : ℕ
  resolution_v : ℕ
deriving DecidableEq

/-- The catalog entry keyed "IV3-G500CA" in `get_camera_data` of `src/main.py`. -/
def ivThreeG500CA : CameraProfile where
  min_fov_x := 22
  max_fov_x := 1184
  min_fov_y := 16
  max_fov_y := 888
  min_dist := 50
  max_dist := 3000
  resolution_h := 1280
  resolution_v := 960

/-- The catalog entry keyed "IV3-G600MA" in `get_camera_data` of `src/main.py`. -/
def ivThreeG600MA : CameraProfile where
  min_fov_x := 51
  max_fov_x := 2730
  min_fov_y := 38
  max_fov_y := 2044
  min_dist := 50
  max_dist := 3000
  resolution_h := 1280
  resolution_v := 960

/-- Embeds the constant returned by `get_camera_data` of `src/main.py`
lines 32-86, in key order. -/
def get_camera_data : List CameraProfile := [ivThreeG500CA, ivThreeG600MA]

/-- Camera catalog entry of `src/i.py` (`cameras`, lines 35-65). These entries
carry no `resolution_h` / `resolution_v` fields; only FOV and distance bounds. -/
structure CameraRange where
  min_fov_x : ℚ
  max_fov_x : ℚ
  min_fov_y : ℚ
  max_fov_y : ℚ
  min_dist : ℚ
  max_dist : ℚ
deriving DecidableEq

/-- Embeds the constant `cameras` of `src/i.py` lines 35-65, in key order:
"IV3-G500CA" then "IV3-G600MA". -/
def cameras : List CameraRange :=
  [⟨22, 1184, 16, 888, 50, 3000⟩, ⟨51, 2730, 38, 2044, 50, 3000⟩]

/-- Embeds the `pixel_aspect_ratio` computation of `src/main.py` lines
119-122: `resolution_h / resolution_v` when `resolution_v` is nonzero, else
the `1.0` default. -/
def pixel_aspect (resolution_h resolution_v : ℕ) : ℚ :=
  if resolution_v ≠ 0 then (resolution_h : ℚ) / (resolution_v : ℚ) else 1

/-- Embeds the callback `update_vertical_from_horizontal` of `src/main.py`
lines 185-191: given the edited horizontal target FOV, the new vertical
target FOV is `new_h / pixel_aspect_ratio` clamped to
`[min_fov_y, max_fov_y]`. The session state is modelled by passing the edited
value in and returning the recomputed one. -/
def update_vertical_from_horizontal (camera : CameraProfile) (target_fov_h_input : ℚ) : ℚ :=
  let new_y := target_fov_h_input / pixel_aspect camera.resolution_h camera.resolution_v
  max camera.min_fov_y (min camera.max_fov_y new_y)

/-- Embeds the callback `update_horizontal_from_vertical` of `src/main.py`
lines 194-200: given the edited vertical target FOV, the new horizontal
target FOV is `new_y * pixel_aspect_ratio` clamped to
`[min_fov_x, max_fov_x]`. -/
def update_horizontal_from_vertical (camera : CameraProfile) (target_fov_y_input : ℚ) : ℚ :=
  let new_h := target_fov_y_input * pixel_aspect camera.resolution_h camera.resolution_v
  max camera.min_fov_x (min camera.max_fov_x new_h)

/-- Closed form of `linear_interpolation` on a non-degenerate input range. -/
lemma linear_interpolation_of_lt (value min_val_in max_val_in min_val_out max_val_out : ℚ)
    (h : min_val_in < max_val_in) :
    linear_interpolation value min_val_in max_val_in min_val_out max_val_out =
      min_val_out + (max min_val_in (min max_val_in value) - min_val_in) *
        (max_val_out - min_val_out) / (max_val_in - min_val_in) := by
  have hne : max_val_in - min_val_in ≠ 0 := sub_ne_zero.mpr (ne_of_gt h)
  simp [linear_interpolation, hne]

/-- C1: for every input with `inMin < inMax`, `linear_interpolation` clamps
the value to `[inMin, inMax]` and applies the affine map
`outMin + (clamped - inMin) * (outMax - outMin) / (inMax - inMin)`; and for
any value above `inMax` the result equals the result at `inMax`. -/
theorem linear_interpolation_clamps_then_affine
    (value inMin inMax outMin outMax : ℚ) (h : inMin < inMax) :
    linear_interpolation value inMin inMax outMin outMax =
      outMin + (max inMin (min inMax value) - inMin) * (outMax - outMin) / (inMax - inMin) ∧
    (inMax < value →
      linear_interpolation value inMin inMax outMin outMax =
        linear_interpolation inMax inMin inMax outMin outMax) := by
  refine ⟨linear_interpolation_of_lt value inMin inMax outMin outMax h, fun hv => ?_⟩
  rw [linear_interpolation_of_lt value inMin inMax outMin outMax h,
    linear_interpolation_of_lt inMax inMin inMax outMin outMax h]
  rw [min_eq_left (le_of_lt hv), min_eq_left (le_refl inMax)]

/-- C1 witness: the spec's concrete clamping example
`interpolate(9999, 50, 3000, 22, 1184) == interpolate(3000, 50, 3000, 22, 1184)`. -/
theorem linear_interpolation_clamps_then_affine_witness :
    linear_interpolation 9999 50 3000 22 1184 =
      22 + (max 50 (min 3000 (9999 : ℚ)) - 50) * (1184 - 22) / (3000 - 50) ∧
    linear_interpolation 9999 50 3000 22 1184 = linear_interpolation 3000 50 3000 22 1184 := by
  have h := linear_interpolation_clamps_then_affine 9999 50 3000 22 1184 (by norm_num)
  exact ⟨h.1, h.2 (by norm_num)⟩

/-- C2: when the input range is degenerate (`inMax = inMin`), the
interpolation returns `outMin` for every value and output range; in
particular `interpolate(v, 5, 5, 10, 20) = 10`. -/
theorem linear_interpolation_degenerate (value c outMin outMax : ℚ) :
    linear_interpolation value c c outMin outMax = outMin ∧
    linear_interpolation value 5 5 10 20 = 10 := by
  constructor <;> simp [linear_interpolation]

/-- C3: the resolution-metrics function returns `(0, 0)` when the pixel
count is zero; otherwise the first component is `fovExtentMm / pixelCount`
and the second is `0` when that quotient is `0` and its reciprocal
otherwise; in particular `resolutionMetrics(100, 0) = (0, 0)`. -/
theorem calculate_resolution_metrics_spec (fov_mm : ℚ) (pixel_dimension : ℕ) :
    calculate_resolution_metrics fov_mm pixel_dimension =
      (if pixel_dimension = 0 then ((0 : ℚ), (0 : ℚ))
       else (fov_mm / (pixel_dimension : ℚ),
         if fov_mm / (pixel_dimension : ℚ) = 0 then 0
         else 1 / (fov_mm / (pixel_dimension : ℚ)))) ∧
    calculate_resolution_metrics 100 0 = (0, 0) := by
  constructor
  · by_cases hp : pixel_dimension = 0
    · simp [calculate_resolution_metrics, hp]
    · by_cases hq : fov_mm / (pixel_dimension : ℚ) = 0 <;>
        simp [calculate_resolution_metrics, hp, hq]
  · simp [calculate_resolution_metrics]

/-- C4: endpoint exactness of the interpolation on a non-degenerate input
range: the map sends `inMin` to `outMin` and `inMax` to `outMax`. -/
theorem linear_interpolation_endpoints (inMin inMax outMin outMax : ℚ) (h : inMin < inMax) :
    linear_interpolation inMin inMin inMax outMin outMax = outMin ∧
    linear_interpolation inMax inMin inMax outMin outMax = outMax := by
  have hne : inMax - inMin ≠ 0 := sub_ne_zero.mpr (ne_of_gt h)
  constructor
  · rw [linear_interpolation_of_lt _ _ _ _ _ h]
    rw [min_eq_right (le_of_lt h), max_eq_right (le_refl inMin)]
    simp
  · rw [linear_interpolation_of_lt _ _ _ _ _ h]
    rw [min_eq_left (le_refl inMax), max_eq_right (le_of_lt h)]
    field_simp

/-- C4 witness: the spec's concrete inverse endpoint
`interpolate(22, 22, 1184, 50, 3000) == 50`. -/
theorem linear_interpolation_endpoints_witness :
    linear_interpolation 22 22 1184 50 3000 = 50 :=
  (linear_interpolation_endpoints 22 1184 50 3000 (by norm_num)).1

/-- C5: for a non-degenerate increasing configuration (`inMin < inMax`,
`outMin < outMax`), `linear_interpolation` is non-decreasing in its value
argument over all inputs (values outside `[inMin, inMax]` being clamped). -/
theorem linear_interpolation_monotone
    (v1 v2 inMin inMax outMin outMax : ℚ)
    (hin : inMin < inMax) (hout : outMin < outMax) (hv : v1 ≤ v2) :
    linear_interpolation v1 inMin inMax outMin outMax ≤
      linear_interpolation v2 inMin inMax outMin outMax := by
  rw [linear_interpolation_of_lt _ _ _ _ _ hin, linear_interpolation_of_lt _ _ _ _ _ hin]
  have hc : max inMin (min inMax v1) ≤ max inMin (min inMax v2) :=
    max_le_max (le_refl inMin) (min_le_min (le_refl inMax) hv)
  have hden : (0 : ℚ) < inMax - inMin := sub_pos.mpr hin
  have hnum : (0 : ℚ) ≤ outMax - outMin := le_of_lt (sub_pos.mpr hout)
  exact add_le_add_left
    ((div_le_div_iff_of_pos_right hden).mpr
      (mul_le_mul_of_nonneg_right (sub_le_sub_right hc inMin) hnum)) outMin

/-- C5 witness: monotonicity instantiated at `v1 = 100 ≤ v2 = 200` on the
distance-to-horizontal-FOV map of the "IV3-G500CA" camera. -/
theorem linear_interpolation_monotone_witness :
    linear_interpolation 100 50 3000 22 1184 ≤ linear_interpolation 200 50 3000 22 1184 :=
  linear_interpolation_monotone 100 200 50 3000 22 1184 (by norm_num) (by norm_num)
    (by norm_num)

/-- C6 counterexample: the round-trip claim as stated fails when the output
range is reversed (`outMin > outMax`). Take `value = 1` strictly inside
`[0, 2]` and output range `outMin = 1, outMax = 0`: the forward map yields
`1/2`, but the swapped-range inverse clamps `1/2` to the (reversed) interval
and returns `0`, not the original `1`. -/
theorem linear_interpolation_roundtrip_counterexample :
    (0 : ℚ) < 1 ∧ (1 : ℚ) < 2 ∧
    linear_interpolation (linear_interpolation 1 0 2 1 0) 1 0 0 2 ≠ 1 := by
  refine ⟨by norm_num, by norm_num, ?_⟩
  norm_num [linear_interpolation]

/-- C6 (amended): round-trip invertibility holds for every value strictly
inside `[inMin, inMax]` provided additionally `outMin < outMax`: applying
the interpolation forward and then with the ranges swapped returns the
original value exactly. -/
theorem linear_interpolation_roundtrip
    (value inMin inMax outMin outMax : ℚ)
    (h1 : inMin < value) (h2 : value < inMax) (hout : outMin < outMax) :
    linear_interpolation (linear_interpolation value inMin inMax outMin outMax)
      outMin outMax inMin inMax = value := by
  have hin : inMin < inMax := lt_trans h1 h2
  have hne1 : inMax - inMin ≠ 0 := sub_ne_zero.mpr (ne_of_gt hin)
  have hne2 : outMax - outMin ≠ 0 := sub_ne_zero.mpr (ne_of_gt hout)
  have hfwd : linear_interpolation value inMin inMax outMin outMax =
      outMin + (value - inMin) * (outMax - outMin) / (inMax - inMin) := by
    rw [linear_interpolation_of_lt _ _ _ _ _ hin,
      min_eq_right (le_of_lt h2), max_eq_right (le_of_lt h1)]
  set w := linear_interpolation value inMin inMax outMin outMax with hw
  have hstep : (value - inMin) * (outMax - outMin) / (inMax - inMin) =
      (value - inMin) / (inMax - inMin) * (outMax - outMin) := by ring
  have hw1 : outMin < w := by
    rw [hfwd]
    exact lt_add_of_pos_right outMin
      (div_pos (mul_pos (sub_pos.mpr h1) (sub_pos.mpr hout)) (sub_pos.mpr hin))
  have hw2 : w < outMax := by
    rw [hfwd, hstep]
    have hfrac : (value - inMin) / (inMax - inMin) < 1 :=
      (div_lt_one (sub_pos.mpr hin)).mpr (sub_lt_sub_right h2 inMin)
    have := mul_lt_of_lt_one_left (sub_pos.mpr hout) hfrac
    linarith
  rw [linear_interpolation_of_lt _ _ _ _ _ hout,
    min_eq_right (le_of_lt hw2), max_eq_right (le_of_lt hw1), hfwd]
  field_simp
  ring

/-- C6 witness: round-trip at `value = 100` strictly inside `[50, 3000]`
mapped through the FOV range `[22, 1184]` and back. -/
theorem linear_interpolation_roundtrip_witness :
    linear_interpolation (linear_interpolation 100 50 3000 22 1184) 22 1184 50 3000 = 100 :=
  linear_interpolation_roundtrip 100 50 3000 22 1184 (by norm_num) (by norm_num)
    (by norm_num)

/-- C7 counterexample: `interpolate(100, 50, 3000, 22, 1184)` equals
`2460/59 ≈ 41.69`, which is nowhere near the claimed `61.39` (off by more
than 19). The spec's own linear fraction `(100-50)/2950 ≈ 0.01695` times
`1162` plus `22` gives `41.69`; "61.39" is an arithmetic slip. -/
theorem concrete_scenario_counterexample :
    linear_interpolation 100 50 3000 22 1184 = 2460 / 59 ∧
    |(2460 : ℚ) / 59 - 6139 / 100| > 19 := by
  constructor
  · norm_num [linear_interpolation]
  · rw [abs_sub_comm, abs_of_pos] <;> norm_num

/-- C7 (amended): `interpolate(100, 50, 3000, 22, 1184) ≈ 41.69` mm (within
`0.01`), and `resolutionMetrics(61.39, 1280)` equals exactly
`(6139/128000, 128000/6139) ≈ (0.04796, 20.85)` as claimed. -/
theorem concrete_scenario :
    |linear_interpolation 100 50 3000 22 1184 - 4169 / 100| < 1 / 100 ∧
    calculate_resolution_metrics (6139 / 100) 1280 = (6139 / 128000, 128000 / 6139) ∧
    |(6139 : ℚ) / 128000 - 4796 / 100000| < 1 / 100000 ∧
    |(128000 : ℚ) / 6139 - 2085 / 100| < 1 / 100 := by
  refine ⟨?_, ?_, ?_, ?_⟩
  · rw [show linear_interpolation 100 50 3000 22 1184 = 2460 / 59 by
      norm_num [linear_interpolation]]
    rw [abs_of_pos] <;> norm_num
  · norm_num [calculate_resolution_metrics]
  · rw [abs_of_pos] <;> norm_num
  · rw [abs_of_pos] <;> norm_num

/-- C8: aspect-ratio coupling. When the sensor's vertical resolution is
nonzero, editing the horizontal axis to `h` recomputes the vertical axis as
`h / (resolutionH / resolutionV)` clamped to `[min_fov_y, max_fov_y]`, and
editing the vertical axis to `v` recomputes the horizontal axis as
`v * (resolutionH / resolutionV)` clamped to `[min_fov_x, max_fov_x]`; each
callback recomputes only the non-edited axis. -/
theorem aspect_coupling (camera : CameraProfile) (h v : ℚ)
    (hrv : camera.resolution_v ≠ 0) :
    update_vertical_from_horizontal camera h =
      max camera.min_fov_y (min camera.max_fov_y
        (h / ((camera.resolution_h : ℚ) / (camera.resolution_v : ℚ)))) ∧
    update_horizontal_from_vertical camera v =
      max camera.min_fov_x (min camera.max_fov_x
        (v * ((camera.resolution_h : ℚ) / (camera.resolution_v : ℚ)))) := by
  constructor <;>
    simp [update_vertical_from_horizontal, update_horizontal_from_vertical,
      pixel_aspect, hrv]

/-- C8 witness: the coupling evaluated on the "IV3-G500CA" camera
(aspect ratio `1280/960 = 4/3`) at horizontal edit `100` and vertical
edit `75`. -/
theorem aspect_coupling_witness :
    update_vertical_from_horizontal ivThreeG500CA 100 =
      max ivThreeG500CA.min_fov_y (min ivThreeG500CA.max_fov_y
        (100 / ((ivThreeG500CA.resolution_h : ℚ) / (ivThreeG500CA.resolution_v : ℚ)))) ∧
    update_horizontal_from_vertical ivThreeG500CA 75 =
      max ivThreeG500CA.min_fov_x (min ivThreeG500CA.max_fov_x
        (75 * ((ivThreeG500CA.resolution_h : ℚ) / (ivThreeG500CA.resolution_v : ℚ)))) :=
  aspect_coupling ivThreeG500CA 100 75 (by decide)

/-- C9: every entry of the `src/main.py` catalog (`get_camera_data`)
satisfies `minDist < maxDist`, `minFovX < maxFovX`, `minFovY < maxFovY`,
`resolutionH > 0` and `resolutionV > 0`; every entry of the `src/i.py`
catalog (`cameras`), which carries no resolution fields, satisfies the
three range inequalities. -/
theorem camera_catalog_invariant :
    (∀ c ∈ get_camera_data, c.min_dist < c.max_dist ∧ c.min_fov_x < c.max_fov_x ∧
      c.min_fov_y < c.max_fov_y ∧ 0 < c.resolution_h ∧ 0 < c.resolution_v) ∧
    (∀ c ∈ cameras, c.min_dist < c.max_dist ∧ c.min_fov_x < c.max_fov_x ∧
      c.min_fov_y < c.max_fov_y) := by
  decide

/-- C9 witness: the invariant instantiated at the first catalog entry. -/
theorem camera_catalog_invariant_witness :
    ivThreeG500CA.min_dist < ivThreeG500CA.max_dist ∧
    ivThreeG500CA.min_fov_x < ivThreeG500CA.max_fov_x ∧
    ivThreeG500CA.min_fov_y < ivThreeG500CA.max_fov_y ∧
    0 < ivThreeG500CA.resolution_h ∧ 0 < ivThreeG500CA.resolution_v :=
  camera_catalog_invariant.1 ivThreeG500CA (by decide)

/-- C10: the variant `calculate_resolution` of `src/i.py` fails by division
by zero exactly when `image_width = 0` or `fov_h = 0` (modelled as `none`);
for all other inputs it returns `(fov_h / image_width, image_width / fov_h)`
without error. -/
theorem calculate_resolution_spec (fov_h image_width : ℚ) :
    (calculate_resolution fov_h image_width = none ↔
      image_width = 0 ∨ fov_h = 0) ∧
    (image_width ≠ 0 → fov_h ≠ 0 →
      calculate_resolution fov_h image_width =
        some (fov_h / image_width, image_width / fov_h)) := by
  by_cases hw : image_width = 0
  · simp [calculate_resolution, hw]
  · by_cases hf : fov_h = 0
    · simp [calculate_resolution, hw, hf]
    · have hmm : fov_h / image_width ≠ 0 := div_ne_zero hf hw
      simp [calculate_resolution, hw, hf, hmm, one_div_div]

/-- C10 witness: `calculate_resolution` raises on zero FOV and zero width,
and computes the pair on the spec's concrete scenario (`fov_h = 100`,
default `image_width = 1280`). -/
theorem calculate_resolution_spec_witness :
    calculate_resolution 0 1280 = none ∧
    calculate_resolution 100 0 = none ∧
    calculate_resolution 100 1280 = some (100 / 1280, 1280 / 100) :=
  ⟨(calculate_resolution_spec 0 1280).1.mpr (Or.inr rfl),
   (calculate_resolution_spec 100 0).1.mpr (Or.inl rfl),
   (calculate_resolution_spec 100 1280).2 (by norm_num) (by norm_num)⟩
